import Mathlib

set_option linter.dupNamespace false

/-!
# frogslack: the slash-command handler `Croak` and the install handler `Hop`

A shallow embedding of `frogslack.go`.  The handlers are translated statement by
statement; everything they call outside the package (net/http, io/ioutil,
encoding/json, github.com/nlopes/slack) is a field of `Env`, so every theorem
holds for whatever those libraries and the network answer.  Logging through
glog has no effect on control flow or on the reply and is left out.
-/

namespace Frogslack

/-! ## Data model -/

/-- Byte sequences, Go `[]byte`. -/
abbrev Bytes := List UInt8

/-- Go `error` values, identified by their message.  Where Go returns an
`error`, the embedding returns `Option error` and `none` is `nil`. -/
abbrev error := String

/-- The bytes of a Go string constant, `[]byte(s)`. -/
def utf8 (s : String) : Bytes := s.toUTF8.data.toList

def RESPONSE_TYPE_IN_CHANNEL : String := "in_channel"

def RESPONSE_TYPE_EPHEMERAL : String := "ephemeral"

structure Attachment where
  Text : String
deriving DecidableEq, Repr

structure Response where
  ResponseType : String
  Text : String
  Attachments : List Attachment := []
deriving DecidableEq, Repr

structure Tip where
  Tip : String
  Number : Int
deriving DecidableEq, Repr

structure TipsResponse where
  Tips : List Tip
deriving DecidableEq, Repr

/-- The zero value `var tip Tip`. -/
def Tip.zero : Frogslack.Tip := { Tip := "", Number := 0 }

structure Team where
  Id : String
deriving DecidableEq, Repr

structure accessResp where
  Ok : Bool
  AppId : String
  Error : String
  Team : Team
deriving DecidableEq, Repr

/-- The zero value `var ar accessResp`. -/
def accessResp.zero : accessResp := { Ok := false, AppId := "", Error := "", Team := { Id := "" } }

/-! ## The standard-library types the handlers touch -/

/-- A `context.Context`: the background context, a context the server attached
to an inbound request, or a cancellable child made by `context.WithCancel`. -/
inductive Context where
  | background : Context
  | server (id : Nat) : Context
  | withCancel (parent : Context) : Context
deriving DecidableEq, Repr

/-- An `http.Header`, as the list of its key/value pairs. -/
structure Header where
  entries : List (String × String)
deriving DecidableEq, Repr

/-- The call `h.Set(key, value)`: the key's earlier values are replaced. -/
def Header.Set (h : Header) (key value : String) : Header :=
  { entries := (key, value) :: h.entries.filter (fun kv => kv.1 ≠ key) }

/-- The call `h.Get(key)`: the key's first value, `""` when it has none. -/
def Header.Get (h : Header) (key : String) : String :=
  match h.entries.find? (fun kv => kv.1 = key) with
  | some kv => kv.2
  | none => ""

/-- An `io.Reader`, described by what reading it to the end yields: the bytes
delivered, and the error that ended the read (`none` for a clean EOF). -/
structure Reader where
  data : Bytes
  err : Option error
deriving DecidableEq, Repr

/-- The body of a request made with a `nil` body. -/
def Reader.noBody : Reader := { data := [], err := none }

/-- The call `ioutil.ReadAll(r)`. -/
def ReadAll (r : Reader) : Bytes × Option error := (r.data, r.err)

/-- An `http.Request`, inbound or outbound. -/
structure Request where
  Method : String
  URL : String
  Header : Header
  Body : Reader
  Form : List (String × String)
  ctx : Context
deriving DecidableEq, Repr

/-- The method `r.Context()`. -/
def Request.Context (r : Request) : Frogslack.Context := r.ctx

/-- The method `r.WithContext(ctx)`: it RETURNS a copy of `r` that carries
`ctx`; the receiver is not changed. -/
def Request.WithContext (r : Request) (ctx : Frogslack.Context) : Request := { r with ctx := ctx }

/-- The method `r.FormValue(key)`: the first value of the form field, `""`
when the field is absent. -/
def Request.FormValue (r : Request) (key : String) : String :=
  match r.Form.find? (fun kv => kv.1 = key) with
  | some kv => kv.2
  | none => ""

/-- An `http.Response` as the client returns it. -/
structure HttpResponse where
  StatusCode : Nat
  Body : Reader
deriving DecidableEq, Repr

/-- An `http.ResponseWriter`: the header map `w.Header()` returns, the status
line and header snapshot that went out (`none` until the first write), and the
`Write` calls in order. -/
structure ResponseWriter where
  header : Header
  sent : Option (Nat × Header)
  body : List Bytes
deriving DecidableEq, Repr

/-- A writer nothing has been written to. -/
def ResponseWriter.fresh : ResponseWriter := { header := { entries := [] }, sent := none, body := [] }

/-- The call `w.WriteHeader(code)`; only the first call takes effect. -/
def ResponseWriter.WriteHeader (w : ResponseWriter) (code : Nat) : ResponseWriter :=
  match w.sent with
  | some _ => w
  | none => { w with sent := some (code, w.header) }

/-- The call `w.Write(b)`: a first write sends status 200 with the headers set so far. -/
def ResponseWriter.Write (w : ResponseWriter) (b : Bytes) : ResponseWriter :=
  let w1 := w.WriteHeader 200
  { w1 with body := w1.body ++ [b] }

/-- The status code of the response that went out. -/
def ResponseWriter.status (w : ResponseWriter) : Option Nat := w.sent.map Prod.fst

/-- The header field of the response that went out (`""` when nothing went out). -/
def ResponseWriter.sentHeader (w : ResponseWriter) (key : String) : String :=
  match w.sent with
  | some (_, h) => h.Get key
  | none => ""

/-- What the body of the token endpoint holds, as `json.Unmarshal` reads it
into an `accessResp`: for each key, its value when the object has the key
(and it is not `null`). -/
structure AccessFields where
  ok : Option Bool
  app_id : Option String
  error : Option String
  team_id : Option String
deriving DecidableEq, Repr

/-- The effect of a successful `json.Unmarshal(body, &ar)`: a key the object
has overwrites its field, a key it lacks leaves the field as it was. -/
def AccessFields.into (f : AccessFields) (ar : accessResp) : accessResp :=
  { Ok := f.ok.getD ar.Ok
    AppId := f.app_id.getD ar.AppId
    Error := f.error.getD ar.Error
    Team := { Id := f.team_id.getD ar.Team.Id } }

/-- Everything outside the package: the package-level variables, and the
library calls the handlers make.  `σ` is the library's `slack.SecretsVerifier`. -/
structure Env (σ : Type) where
  /-- Package variable `apiUrl`. -/
  apiUrl : String
  /-- Package variable `signingSecret`. -/
  signingSecret : String
  /-- Package variable `clientId`. -/
  clientId : String
  /-- Package variable `clientSecret`. -/
  clientSecret : String
  /-- Whether `http.NewRequest` rejects the URL (`url.Parse` fails). -/
  urlParse : String → Option error
  /-- The call `http.DefaultClient.Do(req)`. -/
  clientDo : Request → Except error HttpResponse
  /-- The call `http.PostForm(url, values)`. -/
  postForm : String → List (String × List String) → Except error HttpResponse
  /-- The call `json.NewDecoder(body).Decode(&tr)` on a zero `TipsResponse`. -/
  decodeTips : Reader → Except error TipsResponse
  /-- The call `json.Unmarshal(body, &ar)`. -/
  unmarshalAccess : Bytes → Except error AccessFields
  /-- What `json.NewEncoder(w).Encode(resp)` writes for a `Response` (the JSON
  text and a newline).  Marshalling a struct of strings has no failing case. -/
  jsonEncode : Response → Bytes
  /-- The call `slack.NewSecretsVerifier(h, secret)`. -/
  NewSecretsVerifier : Header → String → Except error σ
  /-- The method `sv.Write(body)`: the verifier afterwards, and the error. -/
  svWrite : σ → Bytes → σ × Option error
  /-- The method `sv.Ensure()`. -/
  svEnsure : σ → Option error

/-- What a handler did: the response writer afterwards, and the requests it
handed to `http.DefaultClient.Do`, in order. -/
structure Outcome where
  w : ResponseWriter
  fetched : List Request
deriving DecidableEq, Repr

/-! ## The package's functions -/

/-- The call `http.NewRequest(method, url, nil)`: the new request carries
`context.Background()`. -/
def NewRequest {σ : Type} (env : Env σ) (method url : String) : Except error Request :=
  match env.urlParse url with
  | some err => .error err
  | none =>
    .ok { Method := method, URL := url, Header := { entries := [] }, Body := Reader.noBody,
          Form := [], ctx := Context.background }

/-- The function `getTip`: the returned pair, and the requests handed to the client. -/
def getTip {σ : Type} (env : Env σ) (ctx : Context) : (Tip × Option error) × List Request :=
  let tip : Tip := Tip.zero
  match NewRequest env "GET" env.apiUrl with
  | .error err => ((tip, some err), [])
  | .ok req =>
    -- the statement `req.WithContext(ctx)`: its result is dropped
    let _ := req.WithContext ctx
    match env.clientDo req with
    | .error err => ((tip, some err), [req])
    | .ok resp =>
      -- `err` is the `nil` that `Do` returned; the decoder's `err` below shadows it
      let err : Option error := none
      match env.decodeTips resp.Body with
      | .error err => ((tip, some err), [req])
      | .ok tr =>
        if h : tr.Tips.length = 0 then
          ((tip, some "NOT ENOUGH TIPS"), [req])
        else
          ((tr.Tips.get ⟨0, Nat.pos_of_ne_zero h⟩, err), [req])

/-- The function `writeResponse`. -/
def writeResponse {σ : Type} (env : Env σ) (w : ResponseWriter) (resp : Response) : ResponseWriter :=
  let w1 : ResponseWriter := { w with header := w.header.Set "Content-Type" "application/json" }
  w1.Write (env.jsonEncode resp)

/-- The function `writeError`. -/
def writeError {σ : Type} (env : Env σ) (w : ResponseWriter) (message : String) : ResponseWriter :=
  writeResponse env w { ResponseType := RESPONSE_TYPE_EPHEMERAL, Text := message }

/-- The function `verify`. -/
def verify {σ : Type} (env : Env σ) (h : Header) (body : Bytes) : Option error :=
  match env.NewSecretsVerifier h env.signingSecret with
  | .error err => some err
  | .ok sv =>
    match env.svWrite sv body with
    | (_, some err) => some err
    | (sv, none) =>
      match env.svEnsure sv with
      | some err => some err
      | none => none

/-- The handler `Croak`.  The deferred `cancel()` runs after the reply is
written and touches neither the writer nor the client. -/
def Croak {σ : Type} (env : Env σ) (w : ResponseWriter) (r : Request) : Outcome :=
  let ctx := Context.withCancel r.Context
  match ReadAll r.Body with
  | (_, some _) => { w := writeError env w "SORRY, NO TIPS RIGHT NOW.", fetched := [] }
  | (body, none) =>
    match verify env r.Header body with
    | some _ => { w := writeError env w "SORRY, NO TIPS RIGHT NOW.", fetched := [] }
    | none =>
      match getTip env ctx with
      | ((_, some _), fetched) =>
        { w := writeResponse env w
            { ResponseType := RESPONSE_TYPE_EPHEMERAL, Text := "SORRY, NO TIPS RIGHT NOW. COME BACK." },
          fetched := fetched }
      | ((tip, none), fetched) =>
        { w := writeResponse env w { ResponseType := RESPONSE_TYPE_IN_CHANNEL, Text := tip.Tip },
          fetched := fetched }

/-- The `url.Values` literal that `Hop` posts. -/
def Hop.values {σ : Type} (env : Env σ) (code : String) : List (String × List String) :=
  [("code", [code]), ("client_id", [env.clientId]), ("client_secret", [env.clientSecret]),
   ("redirect_uri", [""])]

/-- The handler `Hop`: the response writer afterwards. -/
def Hop {σ : Type} (env : Env σ) (w : ResponseWriter) (r : Request) : ResponseWriter :=
  let code := r.FormValue "code"
  match env.postForm "https://slack.com/api/oauth.v2.access" (Hop.values env code) with
  | .error _ => w
  | .ok resp =>
    match ReadAll resp.Body with
    | (_, some _) => w
    | (body, none) =>
      match env.unmarshalAccess body with
      | .error _ => w
      | .ok fields =>
        let ar : accessResp := fields.into accessResp.zero
        if !ar.Ok then
          w.Write (utf8 "dang")
        else
          w.Write (utf8 "it's fine.")

/-! ## Test doubles

Concrete environments in the manner of `frogslack_test.go`: a fake upstream and
a fake token endpoint whose answers are fixed in advance.  They are used to
evaluate the handlers on concrete requests. -/

/-- The first tip of `testResponse` in `frogslack_test.go`. -/
def firstTip : Tip :=
  { Tip := "IF YOU MEET A FROG ON THE ROAD, RMA IT FOR CREDIT TOWARDS ANOTHER FROG.", Number := 1015 }

/-- A second tip, following `firstTip` in the served envelope. -/
def secondTip : Tip := { Tip := "DO NOT GAZE DIRECTLY AT FROG.", Number := 2320 }

/-- A served body holding an envelope of two tips. -/
def tipsDoc : Bytes :=
  utf8 "\x7b\"tips\":[\x7b\"tip\":\"IF YOU MEET A FROG ON THE ROAD, RMA IT FOR CREDIT TOWARDS ANOTHER FROG.\",\"number\":1015\x7d,\x7b\"tip\":\"DO NOT GAZE DIRECTLY AT FROG.\",\"number\":2320\x7d]\x7d"

/-- A served body holding an envelope with no tips. -/
def emptyTipsDoc : Bytes := utf8 "\x7b\"tips\":[]\x7d"

/-- A token-endpoint body with `ok` true. -/
def okDoc : Bytes := utf8 "\x7b\"ok\":true,\"app_id\":\"A1\",\"team\":\x7b\"id\":\"T1\"\x7d\x7d"

/-- A token-endpoint body with `ok` false. -/
def notOkDoc : Bytes := utf8 "\x7b\"ok\":false,\"error\":\"invalid_code\"\x7d"

/-- A token-endpoint body without the `ok` key. -/
def noOkDoc : Bytes := utf8 "\x7b\"error\":\"invalid_code\"\x7d"

/-- The fake environment: the client answers `upstream` to every request and
the token endpoint answers `exchange`; the JSON decoders know the documents
above and reject every other body; the verifier accepts exactly the signature
header `v0=good`. -/
def testEnv (upstream exchange : Except error HttpResponse) : Env Unit :=
  { apiUrl := "http://127.0.0.1:34567"
    signingSecret := "e6b19c573432dcc6b075501d51b51bb8"
    clientId := "client"
    clientSecret := "shh"
    urlParse := fun _ => none
    clientDo := fun _ => upstream
    postForm := fun _ _ => exchange
    decodeTips := fun body =>
      if body.data = tipsDoc then .ok { Tips := [firstTip, secondTip] }
      else if body.data = emptyTipsDoc then .ok { Tips := [] }
      else .error "invalid character"
    unmarshalAccess := fun body =>
      if body = okDoc then
        .ok { ok := some true, app_id := some "A1", error := none, team_id := some "T1" }
      else if body = notOkDoc then
        .ok { ok := some false, app_id := none, error := some "invalid_code", team_id := none }
      else if body = noOkDoc then
        .ok { ok := none, app_id := none, error := some "invalid_code", team_id := none }
      else .error "invalid character"
    jsonEncode := fun resp => utf8 (resp.ResponseType ++ "\n" ++ resp.Text)
    NewSecretsVerifier := fun h _ =>
      if h.Get "X-Slack-Request-Timestamp" = "" then .error "missing headers" else
      if h.Get "X-Slack-Signature" = "v0=good" then .ok () else .error "bad signature"
    svWrite := fun sv _ => (sv, none)
    svEnsure := fun _ => none }

/-- An inbound command whose body reads as `b` and whose signature is `sig`. -/
def command (b : Reader) (sig : String) : Request :=
  { Method := "GET", URL := "/",
    Header := { entries := [("X-Slack-Request-Timestamp", "1600000000"), ("X-Slack-Signature", sig)] },
    Body := b, Form := [], ctx := Context.server 1 }

/-- The body `welp` of the tests. -/
def welp : Reader := { data := utf8 "welp", err := none }

/-- An install callback carrying the form field `code`. -/
def callback : Request :=
  { Method := "GET", URL := "/hop?code=abc", Header := { entries := [] }, Body := Reader.noBody,
    Form := [("code", "abc")], ctx := Context.server 2 }

/-- The request `getTip` builds in `testEnv`. -/
def tipRequest : Request :=
  { Method := "GET", URL := "http://127.0.0.1:34567", Header := { entries := [] },
    Body := Reader.noBody, Form := [], ctx := Context.background }

/-- An answer of the fake upstream with the given status and body. -/
def served (status : Nat) (doc : Bytes) : Except error HttpResponse :=
  .ok { StatusCode := status, Body := { data := doc, err := none } }

/-- An answer whose body breaks off after `doc` with a read error. -/
def cutOff (status : Nat) (doc : Bytes) : Except error HttpResponse :=
  .ok { StatusCode := status, Body := { data := doc, err := some "unexpected EOF" } }

/-- No answer: the transport failed. -/
def refused : Except error HttpResponse := .error "dial tcp: connection refused"

end Frogslack

namespace Frogslack

set_option maxRecDepth 100000

/-! ## Shared lemmas -/

theorem writeResponse_body {σ : Type} (env : Env σ) (w : ResponseWriter) (resp : Response) :
    (writeResponse env w resp).body = w.body ++ [env.jsonEncode resp] := by
  unfold writeResponse ResponseWriter.Write ResponseWriter.WriteHeader
  cases h : w.sent <;> simp [h]

theorem writeResponse_header {σ : Type} (env : Env σ) (w : ResponseWriter) (resp : Response) :
    (writeResponse env w resp).header = w.header.Set "Content-Type" "application/json" := by
  unfold writeResponse ResponseWriter.Write ResponseWriter.WriteHeader
  cases h : w.sent <;> simp [h]

theorem writeResponse_sent {σ : Type} (env : Env σ) (w : ResponseWriter) (resp : Response) :
    (writeResponse env w resp).sent
      = some (w.sent.getD (200, w.header.Set "Content-Type" "application/json")) := by
  unfold writeResponse ResponseWriter.Write ResponseWriter.WriteHeader
  cases h : w.sent <;> simp [h]

theorem Header.Get_Set (h : Header) (key value : String) : (h.Set key value).Get key = value := by
  simp [Header.Set, Header.Get]

/-- The reply of `Croak` is always the result of one `writeResponse`, of a
`Response` that is public or private. -/
theorem Croak_writes {σ : Type} (env : Env σ) (w : ResponseWriter) (r : Request) :
    ∃ resp : Response, (Croak env w r).w = writeResponse env w resp ∧
      (resp.ResponseType = "in_channel" ∨ resp.ResponseType = "ephemeral") := by
  unfold Croak
  rcases hr : ReadAll r.Body with ⟨body, _ | e⟩
  · cases hv : verify env r.Header body with
    | some e =>
      refine ⟨{ ResponseType := RESPONSE_TYPE_EPHEMERAL, Text := "SORRY, NO TIPS RIGHT NOW." },
        ?_, Or.inr rfl⟩
      simp only [hv, writeError]
    | none =>
      rcases hg : getTip env (Context.withCancel r.Context) with ⟨⟨tip, _ | e⟩, fetched⟩
      · refine ⟨{ ResponseType := RESPONSE_TYPE_IN_CHANNEL, Text := tip.Tip }, ?_, Or.inl rfl⟩
        simp only [hv, hg]
      · refine ⟨{ ResponseType := RESPONSE_TYPE_EPHEMERAL,
                  Text := "SORRY, NO TIPS RIGHT NOW. COME BACK." }, ?_, Or.inr rfl⟩
        simp only [hv, hg]
  · exact ⟨{ ResponseType := RESPONSE_TYPE_EPHEMERAL, Text := "SORRY, NO TIPS RIGHT NOW." },
      rfl, Or.inr rfl⟩

/-- The function `verify` returns `nil` exactly when the library's three calls
all succeed; it adds no check of its own, on the secret or on the headers. -/
theorem verify_eq_none_iff {σ : Type} (env : Env σ) (h : Header) (body : Bytes) :
    verify env h body = none ↔
      ∃ sv, env.NewSecretsVerifier h env.signingSecret = .ok sv
        ∧ (env.svWrite sv body).2 = none ∧ env.svEnsure (env.svWrite sv body).1 = none := by
  unfold verify
  cases hn : env.NewSecretsVerifier h env.signingSecret with
  | error e => simp
  | ok sv =>
    rcases hw : env.svWrite sv body with ⟨sv2, _ | e⟩
    · cases he : env.svEnsure sv2 <;> simp [hw, he]
    · simp [hw]

/-- The function `getTip` does not depend on the context it is given. -/
theorem getTip_ignores_ctx {σ : Type} (env : Env σ) (ctx ctx2 : Context) :
    getTip env ctx = getTip env ctx2 := rfl

/-! ## The command handler -/

/-- C1: when the body is read, the signature verifies, and the upstream body
decodes to an envelope whose tips are `first :: rest`, `Croak` writes exactly
one reply: the encoding of the response with type `in_channel`, the text of
`first` and no attachments, whatever `rest` holds. -/
theorem Croak_replies_first_tip {σ : Type} (env : Env σ) (w : ResponseWriter) (r : Request)
    (body : Bytes) (req : Request) (resp : HttpResponse) (first : Tip) (rest : List Tip)
    (hread : ReadAll r.Body = (body, none))
    (hverify : verify env r.Header body = none)
    (hreq : NewRequest env "GET" env.apiUrl = .ok req)
    (hdo : env.clientDo req = .ok resp)
    (hdecode : env.decodeTips resp.Body = .ok { Tips := first :: rest }) :
    (Croak env w r).w.body
      = w.body ++ [env.jsonEncode
          { ResponseType := "in_channel", Text := first.Tip, Attachments := [] }] := by
  have hg : getTip env (Context.withCancel r.Context) = ((first, none), [req]) := by
    simp [getTip, hreq, hdo, hdecode]
  simp only [Croak, hread, hverify, hg, writeResponse_body]
  rfl

theorem Croak_replies_first_tip_witness :
    (Croak (testEnv (served 200 tipsDoc) refused) ResponseWriter.fresh (command welp "v0=good")).w.body
      = [(testEnv (served 200 tipsDoc) refused).jsonEncode
          { ResponseType := "in_channel",
            Text := "IF YOU MEET A FROG ON THE ROAD, RMA IT FOR CREDIT TOWARDS ANOTHER FROG.",
            Attachments := [] }] :=
  Croak_replies_first_tip (testEnv (served 200 tipsDoc) refused) ResponseWriter.fresh
    (command welp "v0=good") (utf8 "welp") tipRequest
    { StatusCode := 200, Body := { data := tipsDoc, err := none } } firstTip [secondTip]
    (by decide) (by decide) rfl rfl rfl

/-- C2: when reading the body fails, or verification of the body read returns
an error, `Croak` writes exactly one reply, the encoding of the `ephemeral`
response with text `SORRY, NO TIPS RIGHT NOW.` (the same in both cases), and
hands no request to the HTTP client. -/
theorem Croak_rejects_without_fetch {σ : Type} (env : Env σ) (w : ResponseWriter) (r : Request)
    (h : (ReadAll r.Body).2 ≠ none ∨ verify env r.Header (ReadAll r.Body).1 ≠ none) :
    (Croak env w r).w.body
        = w.body ++ [env.jsonEncode
            { ResponseType := "ephemeral", Text := "SORRY, NO TIPS RIGHT NOW.", Attachments := [] }]
      ∧ (Croak env w r).fetched = [] := by
  rcases hr : ReadAll r.Body with ⟨body, _ | e⟩
  · rw [hr] at h
    rcases h with h | h
    · exact absurd rfl h
    · cases hv : verify env r.Header body with
      | none => exact absurd hv h
      | some e =>
        simp [Croak, hr, hv, writeError, writeResponse_body, RESPONSE_TYPE_EPHEMERAL]
  · simp [Croak, hr, writeError, writeResponse_body, RESPONSE_TYPE_EPHEMERAL]

theorem Croak_rejects_without_fetch_witness :
    ((Croak (testEnv (served 200 tipsDoc) refused) ResponseWriter.fresh
          (command { data := utf8 "we", err := some "unexpected EOF" } "v0=good")).w.body
        = [(testEnv (served 200 tipsDoc) refused).jsonEncode
            { ResponseType := "ephemeral", Text := "SORRY, NO TIPS RIGHT NOW.", Attachments := [] }]
      ∧ (Croak (testEnv (served 200 tipsDoc) refused) ResponseWriter.fresh
          (command { data := utf8 "we", err := some "unexpected EOF" } "v0=good")).fetched = [])
    ∧ ((Croak (testEnv (served 200 tipsDoc) refused) ResponseWriter.fresh
          (command welp "v0=bad")).w.body
        = [(testEnv (served 200 tipsDoc) refused).jsonEncode
            { ResponseType := "ephemeral", Text := "SORRY, NO TIPS RIGHT NOW.", Attachments := [] }]
      ∧ (Croak (testEnv (served 200 tipsDoc) refused) ResponseWriter.fresh
          (command welp "v0=bad")).fetched = []) :=
  ⟨Croak_rejects_without_fetch (testEnv (served 200 tipsDoc) refused) ResponseWriter.fresh
      (command { data := utf8 "we", err := some "unexpected EOF" } "v0=good") (Or.inl (by decide)),
   Croak_rejects_without_fetch (testEnv (served 200 tipsDoc) refused) ResponseWriter.fresh
      (command welp "v0=bad") (Or.inr (by decide))⟩

/-- C3: for a verified request, when the client fails in transport, or the
upstream body does not decode, or it decodes to an envelope with no tips,
`getTip` returns an error and `Croak` writes exactly one reply, the encoding
of the `ephemeral` response with text `SORRY, NO TIPS RIGHT NOW. COME BACK.`,
the same for the three causes. -/
theorem Croak_fetch_failure {σ : Type} (env : Env σ) (w : ResponseWriter) (r : Request)
    (body : Bytes) (req : Request)
    (hread : ReadAll r.Body = (body, none))
    (hverify : verify env r.Header body = none)
    (hreq : NewRequest env "GET" env.apiUrl = .ok req)
    (hfail : (∃ e, env.clientDo req = .error e)
      ∨ (∃ resp e, env.clientDo req = .ok resp ∧ env.decodeTips resp.Body = .error e)
      ∨ (∃ resp, env.clientDo req = .ok resp ∧ env.decodeTips resp.Body = .ok { Tips := [] })) :
    (getTip env (Context.withCancel r.Context)).1.2 ≠ none
      ∧ (Croak env w r).w.body
        = w.body ++ [env.jsonEncode
            { ResponseType := "ephemeral", Text := "SORRY, NO TIPS RIGHT NOW. COME BACK.",
              Attachments := [] }] := by
  have hg : ∃ tip e fetched,
      getTip env (Context.withCancel r.Context) = ((tip, some e), fetched) := by
    rcases hfail with ⟨e, hdo⟩ | ⟨resp, e, hdo, hdec⟩ | ⟨resp, hdo, hdec⟩
    · exact ⟨Tip.zero, e, [req], by simp [getTip, hreq, hdo]⟩
    · exact ⟨Tip.zero, e, [req], by simp [getTip, hreq, hdo, hdec]⟩
    · exact ⟨Tip.zero, "NOT ENOUGH TIPS", [req], by simp [getTip, hreq, hdo, hdec]⟩
  obtain ⟨tip, e, fetched, hg⟩ := hg
  refine ⟨by simp [hg], ?_⟩
  simp only [Croak, hread, hverify, hg, writeResponse_body]
  rfl

theorem Croak_fetch_failure_witness :
    (((getTip (testEnv refused refused) (Context.withCancel (command welp "v0=good").Context)).1.2 ≠ none
      ∧ (Croak (testEnv refused refused) ResponseWriter.fresh (command welp "v0=good")).w.body
        = [] ++ [(testEnv refused refused).jsonEncode
            { ResponseType := "ephemeral", Text := "SORRY, NO TIPS RIGHT NOW. COME BACK.",
              Attachments := [] }])
    ∧ ((getTip (testEnv (served 200 []) refused)
          (Context.withCancel (command welp "v0=good").Context)).1.2 ≠ none
      ∧ (Croak (testEnv (served 200 []) refused) ResponseWriter.fresh (command welp "v0=good")).w.body
        = [] ++ [(testEnv (served 200 []) refused).jsonEncode
            { ResponseType := "ephemeral", Text := "SORRY, NO TIPS RIGHT NOW. COME BACK.",
              Attachments := [] }]))
    ∧ ((getTip (testEnv (served 200 emptyTipsDoc) refused)
          (Context.withCancel (command welp "v0=good").Context)).1.2 ≠ none
      ∧ (Croak (testEnv (served 200 emptyTipsDoc) refused) ResponseWriter.fresh
          (command welp "v0=good")).w.body
        = [] ++ [(testEnv (served 200 emptyTipsDoc) refused).jsonEncode
            { ResponseType := "ephemeral", Text := "SORRY, NO TIPS RIGHT NOW. COME BACK.",
              Attachments := [] }]) :=
  ⟨⟨Croak_fetch_failure (testEnv refused refused) ResponseWriter.fresh (command welp "v0=good")
      (utf8 "welp") tipRequest (by decide) (by decide) rfl
      (Or.inl ⟨"dial tcp: connection refused", rfl⟩),
    Croak_fetch_failure (testEnv (served 200 []) refused) ResponseWriter.fresh
      (command welp "v0=good") (utf8 "welp") tipRequest (by decide) (by decide) rfl
      (Or.inr (Or.inl ⟨{ StatusCode := 200, Body := { data := [], err := none } },
        "invalid character", rfl, rfl⟩))⟩,
   Croak_fetch_failure (testEnv (served 200 emptyTipsDoc) refused) ResponseWriter.fresh
      (command welp "v0=good") (utf8 "welp") tipRequest (by decide) (by decide) rfl
      (Or.inr (Or.inr ⟨{ StatusCode := 200, Body := { data := emptyTipsDoc, err := none } },
        rfl, rfl⟩))⟩

/-- C5: for every request and every outcome of the body read, the verification
and the fetch, `Croak` sets the header `Content-Type` to `application/json`,
never calls `WriteHeader` (a response not yet started goes out with status 200
and that header), and writes exactly one encoded `Response`, whose type is
`in_channel` or `ephemeral`. -/
theorem Croak_always_one_json_reply {σ : Type} (env : Env σ) (w : ResponseWriter) (r : Request) :
    (Croak env w r).w.header.Get "Content-Type" = "application/json"
      ∧ (Croak env w r).w.sent
          = some (w.sent.getD (200, w.header.Set "Content-Type" "application/json"))
      ∧ (Croak env ResponseWriter.fresh r).w.status = some 200
      ∧ (Croak env ResponseWriter.fresh r).w.sentHeader "Content-Type" = "application/json"
      ∧ ∃ resp : Response, (Croak env w r).w.body = w.body ++ [env.jsonEncode resp]
          ∧ (resp.ResponseType = "in_channel" ∨ resp.ResponseType = "ephemeral") := by
  obtain ⟨resp, hw, ht⟩ := Croak_writes env w r
  obtain ⟨resp0, hw0, _⟩ := Croak_writes env ResponseWriter.fresh r
  refine ⟨?_, ?_, ?_, ?_, resp, ?_, ht⟩
  · rw [hw, writeResponse_header, Header.Get_Set]
  · rw [hw, writeResponse_sent]
  · rw [hw0, ResponseWriter.status, writeResponse_sent]
    rfl
  · rw [hw0, ResponseWriter.sentHeader, writeResponse_sent]
    rfl
  · rw [hw, writeResponse_body]

/-- C7 (the code does otherwise): whatever context `getTip` is given, the one
request it hands to the HTTP client carries `context.Background()`, the
context `http.NewRequest` gave it: the copy made by `req.WithContext(ctx)` is
dropped, so the caller's context never reaches the client. -/
theorem getTip_request_context {σ : Type} (env : Env σ) (ctx : Context) :
    (getTip env ctx).2.map Request.ctx
      = match env.urlParse env.apiUrl with
        | none => [Context.background]
        | some _ => [] := by
  unfold getTip NewRequest
  cases hu : env.urlParse env.apiUrl with
  | some e => rfl
  | none =>
    simp only []
    split
    · rfl
    · split
      · rfl
      · split <;> rfl

theorem getTip_request_context_witness :
    (Croak (testEnv (served 200 tipsDoc) refused) ResponseWriter.fresh
        (command welp "v0=good")).fetched
      = (getTip (testEnv (served 200 tipsDoc) refused)
          (Context.withCancel (Context.server 1))).2
    ∧ (getTip (testEnv (served 200 tipsDoc) refused)
          (Context.withCancel (Context.server 1))).2.map Request.ctx = [Context.background]
    ∧ Context.withCancel (Context.server 1) ≠ Context.background :=
  ⟨by decide,
   getTip_request_context (testEnv (served 200 tipsDoc) refused)
     (Context.withCancel (Context.server 1)),
   by decide⟩

/-- C8 as stated fails: the upstream answers 500 with a body that holds a
well-formed envelope, and `Croak` replies `in_channel` with the first tip, not
the `ephemeral` apology. -/
theorem Croak_upstream_500_counterexample :
    (testEnv (served 500 tipsDoc) refused).clientDo tipRequest
        = .ok { StatusCode := 500, Body := { data := tipsDoc, err := none } }
    ∧ verify (testEnv (served 500 tipsDoc) refused) (command welp "v0=good").Header (utf8 "welp")
        = none
    ∧ (Croak (testEnv (served 500 tipsDoc) refused) ResponseWriter.fresh
        (command welp "v0=good")).w.body
        = [(testEnv (served 500 tipsDoc) refused).jsonEncode
            { ResponseType := "in_channel", Text := firstTip.Tip, Attachments := [] }]
    ∧ (Croak (testEnv (served 500 tipsDoc) refused) ResponseWriter.fresh
        (command welp "v0=good")).w.body
        ≠ [(testEnv (served 500 tipsDoc) refused).jsonEncode
            { ResponseType := "ephemeral", Text := "SORRY, NO TIPS RIGHT NOW. COME BACK.",
              Attachments := [] }] :=
  ⟨rfl, by decide, by decide, by decide⟩

/-- C8 (amended): for a verified request to which the upstream answers with
status 500, `Croak` sets `Content-Type` to `application/json` and writes one
reply that depends on the body alone: the `ephemeral` apology
`SORRY, NO TIPS RIGHT NOW. COME BACK.` when the body does not decode or decodes
to an envelope with no tips, and the `in_channel` reply with the first tip
when it decodes to a non-empty envelope.  The status code is not inspected. -/
theorem Croak_upstream_500 {σ : Type} (env : Env σ) (w : ResponseWriter) (r : Request)
    (body : Bytes) (req : Request) (resp : HttpResponse)
    (hread : ReadAll r.Body = (body, none))
    (hverify : verify env r.Header body = none)
    (hreq : NewRequest env "GET" env.apiUrl = .ok req)
    (hdo : env.clientDo req = .ok resp)
    (_hstatus : resp.StatusCode = 500) :
    (Croak env w r).w.header.Get "Content-Type" = "application/json"
      ∧ (Croak env w r).w.body
        = w.body ++ [env.jsonEncode
            (match env.decodeTips resp.Body with
             | .ok { Tips := first :: _ } =>
               { ResponseType := "in_channel", Text := first.Tip, Attachments := [] }
             | _ =>
               { ResponseType := "ephemeral", Text := "SORRY, NO TIPS RIGHT NOW. COME BACK.",
                 Attachments := [] })] := by
  constructor
  · obtain ⟨resp1, hw, _⟩ := Croak_writes env w r
    rw [hw, writeResponse_header, Header.Get_Set]
  · cases hdec : env.decodeTips resp.Body with
    | error e =>
      have hg : getTip env (Context.withCancel r.Context) = ((Tip.zero, some e), [req]) := by
        simp [getTip, hreq, hdo, hdec]
      simp only [Croak, hread, hverify, hg, writeResponse_body]
      rfl
    | ok tr =>
      obtain ⟨tips⟩ := tr
      cases tips with
      | nil =>
        have hg : getTip env (Context.withCancel r.Context)
            = ((Tip.zero, some "NOT ENOUGH TIPS"), [req]) := by
          simp [getTip, hreq, hdo, hdec]
        simp only [Croak, hread, hverify, hg, writeResponse_body]
        rfl
      | cons first rest =>
        have hg : getTip env (Context.withCancel r.Context) = ((first, none), [req]) := by
          simp [getTip, hreq, hdo, hdec]
        simp only [Croak, hread, hverify, hg, writeResponse_body]
        rfl

theorem Croak_upstream_500_witness :
    ((Croak (testEnv (served 500 []) refused) ResponseWriter.fresh
        (command welp "v0=good")).w.header.Get "Content-Type" = "application/json"
      ∧ (Croak (testEnv (served 500 []) refused) ResponseWriter.fresh
          (command welp "v0=good")).w.body
        = [(testEnv (served 500 []) refused).jsonEncode
            { ResponseType := "ephemeral", Text := "SORRY, NO TIPS RIGHT NOW. COME BACK.",
              Attachments := [] }])
    ∧ ((Croak (testEnv (served 500 tipsDoc) refused) ResponseWriter.fresh
        (command welp "v0=good")).w.header.Get "Content-Type" = "application/json"
      ∧ (Croak (testEnv (served 500 tipsDoc) refused) ResponseWriter.fresh
          (command welp "v0=good")).w.body
        = [(testEnv (served 500 tipsDoc) refused).jsonEncode
            { ResponseType := "in_channel", Text := firstTip.Tip, Attachments := [] }]) :=
  ⟨Croak_upstream_500 (testEnv (served 500 []) refused) ResponseWriter.fresh
      (command welp "v0=good") (utf8 "welp") tipRequest
      { StatusCode := 500, Body := { data := [], err := none } }
      (by decide) (by decide) rfl rfl rfl,
   Croak_upstream_500 (testEnv (served 500 tipsDoc) refused) ResponseWriter.fresh
      (command welp "v0=good") (utf8 "welp") tipRequest
      { StatusCode := 500, Body := { data := tipsDoc, err := none } }
      (by decide) (by decide) rfl rfl rfl⟩

/-! ## The install handler -/

/-- C9 as stated fails: when the token exchange fails in transport, and when
the token endpoint answers with a body that is not JSON, `Hop` writes nothing,
so the body is not `dang`. -/
theorem Hop_failure_counterexample :
    (testEnv refused refused).postForm "https://slack.com/api/oauth.v2.access"
        (Hop.values (testEnv refused refused) (callback.FormValue "code"))
      = .error "dial tcp: connection refused"
    ∧ (Hop (testEnv refused refused) ResponseWriter.fresh callback).body = []
    ∧ (Hop (testEnv refused refused) ResponseWriter.fresh callback).body ≠ [utf8 "dang"]
    ∧ (testEnv refused (served 200 (utf8 "<html>"))).unmarshalAccess (utf8 "<html>")
      = .error "invalid character"
    ∧ (Hop (testEnv refused (served 200 (utf8 "<html>"))) ResponseWriter.fresh callback).body = []
    ∧ (Hop (testEnv refused (served 200 (utf8 "<html>"))) ResponseWriter.fresh callback).body
      ≠ [utf8 "dang"] :=
  ⟨rfl, by decide, by decide, rfl, by decide, by decide⟩

/-- C9 (amended): when the token endpoint's response is read and decodes to a
response with `ok` false, `Hop` writes the plain-text indicator `dang` to the
output body; when the exchange fails in transport, or the response body
cannot be read, or it is not JSON, `Hop` writes nothing and leaves the writer
as it was. -/
theorem Hop_failure {σ : Type} (env : Env σ) (w : ResponseWriter) (r : Request) :
    (∀ resp body fields,
        env.postForm "https://slack.com/api/oauth.v2.access"
            (Hop.values env (r.FormValue "code")) = .ok resp →
        ReadAll resp.Body = (body, none) →
        env.unmarshalAccess body = .ok fields →
        (fields.into accessResp.zero).Ok = false →
        (Hop env w r).body = w.body ++ [utf8 "dang"])
    ∧ (∀ e,
        env.postForm "https://slack.com/api/oauth.v2.access"
            (Hop.values env (r.FormValue "code")) = .error e →
        Hop env w r = w)
    ∧ (∀ resp body e,
        env.postForm "https://slack.com/api/oauth.v2.access"
            (Hop.values env (r.FormValue "code")) = .ok resp →
        ReadAll resp.Body = (body, some e) →
        Hop env w r = w)
    ∧ (∀ resp body e,
        env.postForm "https://slack.com/api/oauth.v2.access"
            (Hop.values env (r.FormValue "code")) = .ok resp →
        ReadAll resp.Body = (body, none) →
        env.unmarshalAccess body = .error e →
        Hop env w r = w) := by
  refine ⟨?_, ?_, ?_, ?_⟩
  · intro resp body fields hpost hread hjson hok
    simp only [Hop, hpost, hread, hjson, hok]
    unfold ResponseWriter.Write ResponseWriter.WriteHeader
    cases h : w.sent <;> simp [h]
  · intro e hpost
    simp only [Hop, hpost]
  · intro resp body e hpost hread
    simp only [Hop, hpost, hread]
  · intro resp body e hpost hread hjson
    simp only [Hop, hpost, hread, hjson]

theorem Hop_failure_witness :
    (Hop (testEnv refused (served 200 notOkDoc)) ResponseWriter.fresh callback).body
        = [] ++ [utf8 "dang"]
    ∧ Hop (testEnv refused refused) ResponseWriter.fresh callback = ResponseWriter.fresh
    ∧ Hop (testEnv refused (cutOff 200 okDoc)) ResponseWriter.fresh callback
        = ResponseWriter.fresh
    ∧ Hop (testEnv refused (served 200 (utf8 "<html>"))) ResponseWriter.fresh callback
        = ResponseWriter.fresh :=
  ⟨(Hop_failure (testEnv refused (served 200 notOkDoc)) ResponseWriter.fresh callback).1
      { StatusCode := 200, Body := { data := notOkDoc, err := none } } notOkDoc
      { ok := some false, app_id := none, error := some "invalid_code", team_id := none }
      rfl rfl rfl rfl,
   (Hop_failure (testEnv refused refused) ResponseWriter.fresh callback).2.1
      "dial tcp: connection refused" rfl,
   (Hop_failure (testEnv refused (cutOff 200 okDoc)) ResponseWriter.fresh callback).2.2.1
      { StatusCode := 200, Body := { data := okDoc, err := some "unexpected EOF" } }
      okDoc "unexpected EOF" rfl rfl,
   (Hop_failure (testEnv refused (served 200 (utf8 "<html>"))) ResponseWriter.fresh callback).2.2.2
      { StatusCode := 200, Body := { data := utf8 "<html>", err := none } }
      (utf8 "<html>") "invalid character" rfl rfl rfl⟩

/-- C10: when the token endpoint's response is read and decodes as JSON, the
body `Hop` writes is fixed by the `ok` key alone: one write of `it's fine.`
when `ok` is true, one write of `dang` when `ok` is false or absent; the two
indicators differ. -/
theorem Hop_reply_by_ok {σ : Type} (env : Env σ) (w : ResponseWriter) (r : Request)
    (resp : HttpResponse) (body : Bytes) (fields : AccessFields)
    (hpost : env.postForm "https://slack.com/api/oauth.v2.access"
        (Hop.values env (r.FormValue "code")) = .ok resp)
    (hread : ReadAll resp.Body = (body, none))
    (hjson : env.unmarshalAccess body = .ok fields) :
    (Hop env w r).body
        = w.body ++ [match fields.ok with
            | some true => utf8 "it's fine."
            | some false => utf8 "dang"
            | none => utf8 "dang"]
      ∧ utf8 "it's fine." ≠ utf8 "dang" := by
  refine ⟨?_, by decide⟩
  simp only [Hop, hpost, hread, hjson]
  unfold ResponseWriter.Write ResponseWriter.WriteHeader AccessFields.into accessResp.zero
  rcases hok : fields.ok with _ | _ | _ <;> cases h : w.sent <;> simp [h]

theorem Hop_reply_by_ok_witness :
    ((Hop (testEnv refused (served 200 okDoc)) ResponseWriter.fresh callback).body
        = [] ++ [utf8 "it's fine."] ∧ utf8 "it's fine." ≠ utf8 "dang")
    ∧ ((Hop (testEnv refused (served 200 notOkDoc)) ResponseWriter.fresh callback).body
        = [] ++ [utf8 "dang"] ∧ utf8 "it's fine." ≠ utf8 "dang")
    ∧ ((Hop (testEnv refused (served 200 noOkDoc)) ResponseWriter.fresh callback).body
        = [] ++ [utf8 "dang"] ∧ utf8 "it's fine." ≠ utf8 "dang") :=
  ⟨Hop_reply_by_ok (testEnv refused (served 200 okDoc)) ResponseWriter.fresh callback
      { StatusCode := 200, Body := { data := okDoc, err := none } } okDoc
      { ok := some true, app_id := some "A1", error := none, team_id := some "T1" }
      rfl rfl rfl,
   Hop_reply_by_ok (testEnv refused (served 200 notOkDoc)) ResponseWriter.fresh callback
      { StatusCode := 200, Body := { data := notOkDoc, err := none } } notOkDoc
      { ok := some false, app_id := none, error := some "invalid_code", team_id := none }
      rfl rfl rfl,
   Hop_reply_by_ok (testEnv refused (served 200 noOkDoc)) ResponseWriter.fresh callback
      { StatusCode := 200, Body := { data := noOkDoc, err := none } } noOkDoc
      { ok := none, app_id := none, error := some "invalid_code", team_id := none }
      rfl rfl rfl⟩

end Frogslack
